import Mathlib

/-!
Verification development for the Dataset Analysis & Configurable Reporting
Engine of the zyra repository.

The repository ships the engine's UI callers (the dataset-analysis page,
the enhanced-analytics page and the settings page, in TypeScript) but no
backend engine source; the spec records that no equivalent backend source
was present.  Definitions below therefore come from two places, each marked
in its doc comment:

- Frontend definitions are shallow embeddings of the TypeScript source
  (the `AnalyticsConfiguration` interface, `handleSetDefault`,
  `renderCorrelationHeatmap`, the outlier-method selector state).
- Engine definitions carry a doc comment starting `Modelled from the
  spec:` and are built from the spec's words alone.

Machine arithmetic is modelled over `Rat` (exact rational arithmetic).
-/

namespace Zyra

instance {ε α : Type} [DecidableEq ε] [DecidableEq α] :
    DecidableEq (Except ε α) := fun a b =>
  match a, b with
  | .ok x, .ok y =>
      if h : x = y then .isTrue (by rw [h]) else .isFalse (by simp [h])
  | .error x, .error y =>
      if h : x = y then .isTrue (by rw [h]) else .isFalse (by simp [h])
  | .ok _, .error _ => .isFalse (by simp)
  | .error _, .ok _ => .isFalse (by simp)

/-- A cell of a tabular dataset: a numeric value, a raw string value, or a
missing marker.  The spec's missing-value sentinel set (empty string,
explicit null markers) is normalized to the `missing` constructor. -/
inductive Cell where
  | num (q : Rat)
  | str (s : String)
  | missing
deriving DecidableEq, Repr

/-- A named column with its raw value sequence (spec section 3). -/
structure Column where
  name : String
  values : List Cell
deriving DecidableEq, Repr

/-- An immutable tabular dataset snapshot: named columns plus its row
count (spec section 3). -/
structure Dataset where
  columns : List Column
  row_count : Nat
deriving DecidableEq, Repr

/-- A dataset is well formed when every column holds exactly `row_count`
cells. -/
def WellFormed (ds : Dataset) : Prop :=
  ∀ c ∈ ds.columns, c.values.length = ds.row_count

instance : DecidablePred WellFormed := fun ds =>
  inferInstanceAs (Decidable (∀ c ∈ ds.columns, c.values.length = ds.row_count))

/-- Semantic column types inferred by the profiler (spec glossary). -/
inductive SemType where
  | boolean
  | numeric
  | datetime
  | categorical
  | text
deriving DecidableEq, Repr

def Cell.isMissing : Cell → Bool
  | .missing => true
  | _ => false

def Cell.isNum : Cell → Bool
  | .num _ => true
  | _ => false

/-- Modelled from the spec: the fixed small set of boolean-like literals
used by semantic-type inference (section 4.1). -/
def boolLiterals : List String := ["true", "false", "yes", "no", "0", "1"]

def Cell.isBoolLit : Cell → Bool
  | .num q => q = 0 ∨ q = 1
  | .str s => boolLiterals.contains s
  | .missing => false

/-- Modelled from the spec: the fixed date format recognized by
semantic-type inference (section 4.1), here ISO `YYYY-MM-DD`. -/
def isDateString (s : String) : Bool :=
  match s.toList with
  | [y1, y2, y3, y4, h1, m1, m2, h2, d1, d2] =>
      y1.isDigit && y2.isDigit && y3.isDigit && y4.isDigit &&
      (h1 == '-') && m1.isDigit && m2.isDigit &&
      (h2 == '-') && d1.isDigit && d2.isDigit
  | _ => false

def Cell.isDateLike : Cell → Bool
  | .str s => isDateString s
  | _ => false

/-- Non-missing cells of a value sequence. -/
def nonMissing (vs : List Cell) : List Cell :=
  vs.filter (fun c => ! c.isMissing)

/-- The numeric values among a value sequence (missing and non-numeric
cells dropped). -/
def numericValues (vs : List Cell) : List Rat :=
  vs.filterMap (fun c => match c with | .num q => some q | _ => none)

/-- Total string length of the cells, used by the free-text check. -/
def cellTextLen (vs : List Cell) : Nat :=
  (vs.map (fun c => match c with | .str s => s.length | _ => 0)).sum

/-- Modelled from the spec: semantic-type inference order per column
(section 4.1): boolean, then numeric, then datetime, then categorical when
the distinct-value share of non-missing values is below the default 0.5
threshold and the values are not free-text length (average length at most
50), else text. -/
def inferType (values : List Cell) : SemType :=
  let nm := nonMissing values
  if nm.all Cell.isBoolLit then SemType.boolean
  else if nm.all Cell.isNum then SemType.numeric
  else if nm.all Cell.isDateLike then SemType.datetime
  else if 2 * nm.dedup.length < nm.length ∧ cellTextLen nm ≤ 50 * nm.length then
    SemType.categorical
  else SemType.text

def monotoneUp : List Rat → Bool
  | [] => true
  | [_] => true
  | a :: b :: t => (a < b) && monotoneUp (b :: t)

def monotoneDown : List Rat → Bool
  | [] => true
  | [_] => true
  | a :: b :: t => (b < a) && monotoneDown (b :: t)

/-- Modelled from the spec: identifier-like columns are unique per row and
monotonic (for example sequential ids), flagged and excluded from
correlation and outlier scanning (section 4.1). -/
def isIdentifierLike (c : Column) : Bool :=
  let xs := numericValues c.values
  2 ≤ c.values.length && xs.length = c.values.length &&
  xs.dedup.length = xs.length && (monotoneUp xs || monotoneDown xs)

/-- Ascending sort of rationals. -/
def sortRat (xs : List Rat) : List Rat :=
  List.insertionSort (fun a b => a ≤ b) xs

/-- Modelled from the spec: linear-interpolation quantile at fraction `q`
of a value list (0 on an empty list). -/
def quantileLinear (q : Rat) (xs : List Rat) : Rat :=
  let s := sortRat xs
  match s with
  | [] => 0
  | _ =>
    let pos : Rat := q * ((s.length - 1 : Nat) : Rat)
    let k : Nat := pos.floor.toNat
    let fr : Rat := pos - (k : Rat)
    let a := s.getD k 0
    let b := s.getD (k + 1) a
    a + fr * (b - a)

def ratMean (xs : List Rat) : Rat := xs.sum / (xs.length : Rat)

/-- Population variance of a value list. -/
def ratVariance (xs : List Rat) : Rat :=
  ((xs.map (fun x => (x - ratMean xs) ^ 2)).sum) / (xs.length : Rat)

/-- The error taxonomy of the engine (spec section 7). -/
inductive AnalysisError where
  | DatasetNotFound
  | DatasetUnreadable
  | UnknownColumn
  | AmbiguousTarget
  | UnsupportedMethod
  | SectionComputationFailed (sectionName : String)
deriving DecidableEq, Repr

/-- Per-column outlier findings: count, percentage and a bounded sample of
representative row indices (spec section 4.2, `OutlierInfo` in the
dataset-analysis page). -/
structure ColumnOutliers where
  count : Nat
  percentage : Rat
  indices : List Nat
deriving DecidableEq, Repr

/-- The outlier report shape of the `OutlierInfo` interface in the
dataset-analysis page: method name, per-column map, total count and
templated recommendation strings. -/
structure OutlierReport where
  method : String
  outliers_by_column : List (String × ColumnOutliers)
  total_outliers : Nat
  recommendations : List String
deriving DecidableEq, Repr

/-- Percentage of outliers among `row_count` rows. -/
def outlierPercentage (count row_count : Nat) : Rat :=
  (count : Rat) / (row_count : Rat) * 100

/-- Modelled from the spec: IQR strategy - bounds are
`Q1 - 1.5 * IQR` and `Q3 + 1.5 * IQR`; values outside are outliers
(section 4.2).  Returns the flagged row indices of one column. -/
def iqrFlagged (c : Column) : List Nat :=
  let xs := numericValues c.values
  let q1 := quantileLinear (1 / 4) xs
  let q3 := quantileLinear (3 / 4) xs
  let iqr := q3 - q1
  let lo := q1 - 3 / 2 * iqr
  let hi := q3 + 3 / 2 * iqr
  c.values.enum.filterMap (fun p =>
    match p.2 with
    | Cell.num q => if q < lo ∨ hi < q then some p.1 else none
    | _ => none)

/-- Modelled from the spec: Z-score strategy - values with `|z| > 3` using
population mean and standard deviation (section 4.2); the comparison is
carried out on squares to stay in exact arithmetic:
`|z| > 3` holds exactly when `(x - mean)^2 > 9 * variance`. -/
def zscoreFlagged (c : Column) : List Nat :=
  let xs := numericValues c.values
  let mu := ratMean xs
  let v := ratVariance xs
  c.values.enum.filterMap (fun p =>
    match p.2 with
    | Cell.num q => if (q - mu) ^ 2 > 9 * v then some p.1 else none
    | _ => none)

/-- Modelled from the spec: isolation-forest-style strategy - a density
heuristic scoring each row by distance from the column median; rows whose
score lies above the default 5 percent contamination quantile (the 95th
percentile of scores) are flagged (section 4.2). -/
def isoFlagged (c : Column) : List Nat :=
  let xs := numericValues c.values
  let med := quantileLinear (1 / 2) xs
  let scores := xs.map (fun x => |x - med|)
  let theta := quantileLinear (19 / 20) scores
  c.values.enum.filterMap (fun p =>
    match p.2 with
    | Cell.num q => if |q - med| > theta then some p.1 else none
    | _ => none)

/-- Modelled from the spec: only numeric, non-identifier-like columns are
scanned for outliers and correlation (sections 4.1 and 4.2). -/
def scannedColumns (ds : Dataset) : List Column :=
  ds.columns.filter (fun c =>
    inferType c.values = SemType.numeric ∧ isIdentifierLike c = false)

/-- Modelled from the spec: recommendation strings templated from the
outlier percentage (section 4.2). -/
def recommendFor (p : Rat) : String :=
  if 10 < p then "investigate data collection process"
  else if 5 ≤ p then "consider robust scaling"
  else "safe to drop or cap"

/-- Modelled from the spec: per-column outlier entries for one strategy;
`flag` yields the flagged row indices of a column, `skip` drops columns
the strategy does not report (the Z-score zero-variance skip); the index
sample is capped at 50 (section 4.2). -/
def outlierEntries (flag : Column → List Nat) (skip : Column → Bool)
    (ds : Dataset) : List (String × ColumnOutliers) :=
  (scannedColumns ds).filterMap (fun c =>
    if skip c then none
    else
      let idx := flag c
      some (c.name,
        ⟨idx.length, outlierPercentage idx.length ds.row_count, idx.take 50⟩))

/-- Report for one strategy from its per-column entries. -/
def mkOutlierReport (method : String)
    (entries : List (String × ColumnOutliers)) : OutlierReport :=
  { method := method
    outliers_by_column := entries
    total_outliers := (entries.map (fun e => e.2.count)).sum
    recommendations := entries.map (fun e => recommendFor e.2.percentage) }

/-- Modelled from the spec: the outlier detector dispatch - strategies are
selected by name among `iqr`, `zscore` and `isolation_forest`; an unknown
strategy name fails with `UnsupportedMethod` (section 4.2). -/
def detectOutliers (ds : Dataset) (method : String) :
    Except AnalysisError OutlierReport :=
  if method = "iqr" then
    .ok (mkOutlierReport method (outlierEntries iqrFlagged (fun _ => false) ds))
  else if method = "zscore" then
    .ok (mkOutlierReport method
      (outlierEntries zscoreFlagged
        (fun c => ratVariance (numericValues c.values) = 0) ds))
  else if method = "isolation_forest" then
    .ok (mkOutlierReport method (outlierEntries isoFlagged (fun _ => false) ds))
  else
    .error AnalysisError.UnsupportedMethod

/-- Exact square root of a rational: `some r` with `r * r = q` when `q` is
a perfect square of rationals, `none` otherwise.  Since `q` is stored in
lowest terms, `q` is a rational square exactly when numerator and
denominator are both perfect squares. -/
def ratSqrt (q : Rat) : Option Rat :=
  if q.num < 0 then none
  else
    let a := Nat.sqrt q.num.toNat
    let b := Nat.sqrt q.den
    if a * a = q.num.toNat ∧ b * b = q.den then some ((a : Rat) / (b : Rat))
    else none

/-- Rows where both columns hold a numeric value: the overlapping
non-missing observations of a column pair (spec section 4.3). -/
def overlapPairs (xs ys : List Cell) : List (Rat × Rat) :=
  (xs.zip ys).filterMap (fun p =>
    match p with
    | (Cell.num a, Cell.num b) => some (a, b)
    | _ => none)

/-- Modelled from the spec: Pearson correlation of two columns over their
overlapping non-missing observations; pairs with fewer than the default
minimum of 2 overlapping observations are reported as `none` (null), not
`0` (section 4.3).  Zero-variance pairs, for which the coefficient is
undefined, are also `none`.  The model is restricted to coefficients that
are exactly representable as rationals (the square root of the variance
product must be rational); no claim is decided on an input outside that
restriction. -/
def pearson (c1 c2 : Column) : Option Rat :=
  let xy := overlapPairs c1.values c2.values
  if xy.length < 2 then none
  else
    let xs := xy.map Prod.fst
    let ys := xy.map Prod.snd
    let mx := ratMean xs
    let my := ratMean ys
    let cov := ((xy.map (fun p => (p.1 - mx) * (p.2 - my))).sum)
    let vx := ((xs.map (fun x => (x - mx) ^ 2)).sum)
    let vy := ((ys.map (fun y => (y - my) ^ 2)).sum)
    if vx = 0 ∨ vy = 0 then none
    else
      match ratSqrt (vx * vy) with
      | some d => if d = 0 then none else some (cov / d)
      | none => none

/-- The wire shape of `correlation_data.correlation_matrix` read by the
enhanced-analytics page: an object of objects, a null entry standing for
an undetermined coefficient. -/
abbrev CorrMatrixWire : Type := List (String × List (String × Option Rat))

/-- Modelled from the spec: the pairwise correlation matrix over numeric,
non-identifier-like columns; fewer than 2 qualifying columns yields an
empty matrix, not an error (section 4.3). -/
def matrixOf (ds : Dataset) : CorrMatrixWire :=
  let cols := scannedColumns ds
  if cols.length < 2 then []
  else cols.map (fun c1 => (c1.name, cols.map (fun c2 => (c2.name, pearson c1 c2))))

/-- Shallow embedding of `renderCorrelationHeatmap` in the
enhanced-analytics page: `columns = Object.keys(corrMatrix)` and
`z[i][j] = corrMatrix[col1]?.[col2] || 0`, so a missing or null entry is
rendered as the number 0. -/
def heatmapZ (m : CorrMatrixWire) : List (List Rat) :=
  let columns := m.map (fun r => r.1)
  columns.map (fun c1 =>
    columns.map (fun c2 =>
      (((m.lookup c1).bind (fun row => row.lookup c2)).join).getD 0))

/-- One entry of `high_correlation_pairs` (spec section 3). -/
structure CorrPair where
  col1 : String
  col2 : String
  coefficient : Rat
deriving DecidableEq, Repr

/-- Unordered pairs of a list, keeping the list order. -/
def columnPairs : List Column → List (Column × Column)
  | [] => []
  | c :: t => t.map (fun d => (c, d)) ++ columnPairs t

/-- Column pairs whose Pearson coefficient is determined. -/
def computedPairs (ds : Dataset) : List CorrPair :=
  (columnPairs (scannedColumns ds)).filterMap (fun p =>
    (pearson p.1 p.2).map (fun r => CorrPair.mk p.1.name p.2.name r))

/-- Modelled from the spec: the subset of determined pairs with
`|coefficient| >= threshold` (section 3, default threshold 0.7). -/
def qualifyingPairs (ds : Dataset) (threshold : Rat) : List CorrPair :=
  (computedPairs ds).filter (fun p => threshold ≤ |p.coefficient|)

/-- Modelled from the spec: the order on high-correlation pairs -
descending absolute coefficient, ties broken by column-name lexical order
for determinism (section 3). -/
def pairLE (a b : CorrPair) : Prop :=
  |b.coefficient| < |a.coefficient| ∨
    (|a.coefficient| = |b.coefficient| ∧
      (a.col1 < b.col1 ∨ (a.col1 = b.col1 ∧ a.col2 ≤ b.col2)))

instance : DecidableRel pairLE := fun a b => by
  unfold pairLE; infer_instance

instance : IsTotal CorrPair pairLE := by
  constructor
  intro a b
  rcases lt_trichotomy |a.coefficient| |b.coefficient| with h | h | h
  · exact Or.inr (Or.inl h)
  · rcases lt_trichotomy a.col1 b.col1 with h1 | h1 | h1
    · exact Or.inl (Or.inr ⟨h, Or.inl h1⟩)
    · rcases le_total a.col2 b.col2 with h2 | h2
      · exact Or.inl (Or.inr ⟨h, Or.inr ⟨h1, h2⟩⟩)
      · exact Or.inr (Or.inr ⟨h.symm, Or.inr ⟨h1.symm, h2⟩⟩)
    · exact Or.inr (Or.inr ⟨h.symm, Or.inl h1⟩)
  · exact Or.inl (Or.inl h)

instance : IsTrans CorrPair pairLE := by
  constructor
  intro a b c hab hbc
  rcases hab with hab | ⟨hab, hn1⟩
  · rcases hbc with hbc | ⟨hbc, _⟩
    · exact Or.inl (hbc.trans hab)
    · exact Or.inl (hbc ▸ hab)
  · rcases hbc with hbc | ⟨hbc, hn2⟩
    · exact Or.inl (lt_of_lt_of_le hbc hab.ge)
    · refine Or.inr ⟨hab.trans hbc, ?_⟩
      rcases hn1 with h1 | ⟨h1, h1c⟩
      · rcases hn2 with h2 | ⟨h2, _⟩
        · exact Or.inl (h1.trans h2)
        · exact Or.inl (h2 ▸ h1)
      · rcases hn2 with h2 | ⟨h2, h2c⟩
        · exact Or.inl (h1 ▸ h2)
        · exact Or.inr ⟨h1.trans h2, h1c.trans h2c⟩

/-- The qualifying pairs in descending-coefficient order. -/
def sortedQualifying (ds : Dataset) (threshold : Rat) : List CorrPair :=
  List.insertionSort pairLE (qualifyingPairs ds threshold)

/-- Modelled from the spec: `high_correlation_pairs` - the qualifying
pairs in order, capped at `max_correlation_pairs` (sections 3 and 4.3). -/
def highCorrelationPairs (ds : Dataset) (threshold : Rat) (cap : Nat) :
    List CorrPair :=
  (sortedQualifying ds threshold).take cap

/-- The `correlation_data` section of a report. -/
structure CorrelationData where
  correlation_matrix : CorrMatrixWire
  high_correlation_pairs : List CorrPair
deriving DecidableEq

/-- Modelled from the spec: the Correlation Analyzer output
(section 4.3). -/
def analyzeCorrelations (ds : Dataset) (threshold : Rat) (cap : Nat) :
    CorrelationData :=
  { correlation_matrix := matrixOf ds
    high_correlation_pairs := highCorrelationPairs ds threshold cap }

/-- Type-specific numeric statistics of a column profile (spec section 3).
Spread is carried as the exact population variance; standard deviation and
skew, which are irrational in general, are represented by their defining
moments. -/
structure NumericStats where
  mean : Rat
  variance : Rat
  vmin : Rat
  vmax : Rat
  q1 : Rat
  median : Rat
  q3 : Rat
deriving DecidableEq, Repr

/-- Modelled from the spec: numeric univariate statistics of a value list
(zeroed on an empty list). -/
def numericStatsOf (xs : List Rat) : NumericStats :=
  { mean := ratMean xs
    variance := ratVariance xs
    vmin := (sortRat xs).headD 0
    vmax := (sortRat xs).getLastD 0
    q1 := quantileLinear (1 / 4) xs
    median := quantileLinear (1 / 2) xs
    q3 := quantileLinear (3 / 4) xs }

/-- Derived per-column profile (spec section 3). -/
structure ColumnProfile where
  name : String
  sem_type : SemType
  missing_count : Nat
  missing_percentage : Rat
  distinct_count : Nat
  identifier_like : Bool
  numeric_stats : Option NumericStats
deriving DecidableEq, Repr

/-- Distinct non-missing value count of a column. -/
def distinctCount (c : Column) : Nat := (nonMissing c.values).dedup.length

/-- Modelled from the spec: the TypedColumn Profiler (sections 2 and
4.1). -/
def profileColumn (row_count : Nat) (c : Column) : ColumnProfile :=
  let nm := nonMissing c.values
  let t := inferType c.values
  { name := c.name
    sem_type := t
    missing_count := c.values.length - nm.length
    missing_percentage :=
      ((c.values.length - nm.length : Nat) : Rat) / (row_count : Rat) * 100
    distinct_count := nm.dedup.length
    identifier_like := isIdentifierLike c
    numeric_stats :=
      if t = SemType.numeric then some (numericStatsOf (numericValues c.values))
      else none }

/-- Aggregate dataset profile (spec section 3). -/
structure DatasetProfile where
  row_count : Nat
  column_count : Nat
  column_profiles : List ColumnProfile
  duplicate_row_count : Nat
  total_missing_cells : Nat
deriving DecidableEq, Repr

/-- The dataset's rows, reconstructed from its columns. -/
def rowsOf (ds : Dataset) : List (List Cell) :=
  (List.range ds.row_count).map (fun i =>
    ds.columns.map (fun c => c.values.getD i Cell.missing))

/-- Number of rows equal to an earlier row. -/
def duplicateRowCount (ds : Dataset) : Nat :=
  ds.row_count - (rowsOf ds).dedup.length

/-- Total missing cells across the table. -/
def totalMissing (ds : Dataset) : Nat :=
  (ds.columns.map (fun c => (c.values.filter Cell.isMissing).length)).sum

/-- Modelled from the spec: the Dataset Profiler - per-column profiles
plus whole-table metrics; an empty dataset yields a zeroed profile rather
than failing (section 4.1). -/
def profileDataset (ds : Dataset) : DatasetProfile :=
  { row_count := ds.row_count
    column_count := ds.columns.length
    column_profiles := ds.columns.map (profileColumn ds.row_count)
    duplicate_row_count := duplicateRowCount ds
    total_missing_cells := totalMissing ds }

/-- The `missing_analysis` section, shaped as read by the
enhanced-analytics page (`missing_analysis.missing_counts`). -/
structure MissingAnalysis where
  missing_counts : List (String × Nat)
  total_missing : Nat
deriving DecidableEq, Repr

/-- Modelled from the spec: per-column and total missing-value counts. -/
def computeMissingAnalysis (ds : Dataset) : MissingAnalysis :=
  { missing_counts :=
      ds.columns.map (fun c => (c.name, (c.values.filter Cell.isMissing).length))
    total_missing := totalMissing ds }

/-- Modelled from the spec: the `statistical_summary` section - numeric
statistics for each scanned numeric column. -/
def statisticalSummary (ds : Dataset) : List (String × NumericStats) :=
  (scannedColumns ds).map (fun c => (c.name, numericStatsOf (numericValues c.values)))

/-- Inferred problem type (spec glossary). -/
inductive ProblemType where
  | classification
  | regression
  | clustering
deriving DecidableEq, Repr

/-- Modelled from the spec: problem-type inference (section 4.5) - target
absent means clustering; a categorical target with at most 20 distinct
values means classification; a numeric target means regression; anything
else fails with `AmbiguousTarget` rather than guessing. -/
def inferProblemType (target : Option Column) :
    Except AnalysisError ProblemType :=
  match target with
  | none => .ok ProblemType.clustering
  | some c =>
      if inferType c.values = SemType.categorical ∧ distinctCount c ≤ 20 then
        .ok ProblemType.classification
      else if inferType c.values = SemType.numeric then
        .ok ProblemType.regression
      else .error AnalysisError.AmbiguousTarget

/-- Dataset-size buckets (spec section 4.5). -/
inductive SizeBucket where
  | small
  | medium
  | large
deriving DecidableEq, Repr

/-- Modelled from the spec: small below 1k rows, medium below 100k, large
otherwise (section 4.5). -/
def sizeBucket (n : Nat) : SizeBucket :=
  if n < 1000 then SizeBucket.small
  else if n < 100000 then SizeBucket.medium
  else SizeBucket.large

/-- A model-family recommendation (spec section 3). -/
structure ModelRecommendation where
  model_family : String
  priority : String
  rationale : String
  problem_type : ProblemType
deriving DecidableEq, Repr

/-- Modelled from the spec: the static rule table from size bucket and
problem type to a ranked candidate list (section 4.5, following its
examples for classification). -/
def ruleTable (b : SizeBucket) (t : ProblemType) : List String :=
  match t, b with
  | ProblemType.classification, SizeBucket.small =>
      ["logistic regression", "decision tree"]
  | ProblemType.classification, SizeBucket.medium =>
      ["random forest", "gradient boosting", "logistic regression"]
  | ProblemType.classification, SizeBucket.large =>
      ["gradient boosting", "random forest"]
  | ProblemType.regression, SizeBucket.small =>
      ["linear regression", "decision tree"]
  | ProblemType.regression, SizeBucket.medium =>
      ["random forest", "gradient boosting", "linear regression"]
  | ProblemType.regression, SizeBucket.large =>
      ["gradient boosting", "random forest"]
  | ProblemType.clustering, _ =>
      ["k-means", "hierarchical clustering", "dbscan"]

/-- Modelled from the spec: the Model Recommendation Advisor - infers the
problem type, selects candidates from the rule table, caps the list at
`max_model_recommendations`; on an empty dataset every optional section
produces an empty result (section 4.5 and the zero-row scenario of
section 8). -/
def recommendModels (ds : Dataset) (target : Option Column) (cap : Nat) :
    Except AnalysisError (List ModelRecommendation) :=
  match inferProblemType target with
  | .error e => .error e
  | .ok t =>
      if ds.row_count = 0 then .ok []
      else
        .ok ((((ruleTable (sizeBucket ds.row_count) t).enum).map (fun p =>
          ModelRecommendation.mk p.2
            (if p.1 = 0 then "high" else "medium")
            "selected by dataset-size bucket and problem type" t)).take cap)

/-- A feature-engineering suggestion (spec section 3). -/
structure Suggestion where
  kind : String
  column : String
  method : String
  priority : String
  rationale : String
deriving DecidableEq, Repr

/-- The `FeatureSuggestions` interface of the dataset-analysis page:
five suggestion lists. -/
structure FeatureSuggestions where
  encoding_suggestions : List Suggestion
  scaling_suggestions : List Suggestion
  feature_creation_suggestions : List Suggestion
  missing_value_suggestions : List Suggestion
  transformation_suggestions : List Suggestion
deriving DecidableEq, Repr

/-- Distinct-value share of the non-missing values of a column. -/
def distinctShare (c : Column) : Rat :=
  (distinctCount c : Rat) / (((nonMissing c.values).length : Nat) : Rat)

/-- Missing-value percentage of a column. -/
def missingPct (row_count : Nat) (c : Column) : Rat :=
  ((c.values.filter Cell.isMissing).length : Rat) / (row_count : Rat) * 100

/-- Modelled from the spec: the encoding row of the decision table
(section 4.4) keyed on the distinct-value share of a categorical
column. -/
def encodingSuggestion (hasTarget : Bool) (c : Column) : Option Suggestion :=
  if inferType c.values = SemType.categorical then
    if distinctShare c < 1 / 20 then
      some ⟨"encoding", c.name, "one-hot encoding",
        if hasTarget then "high" else "medium", "low-cardinality categorical"⟩
    else if distinctShare c ≤ 3 / 10 then
      some ⟨"encoding", c.name, "target or frequency encoding", "medium",
        "mid-cardinality categorical"⟩
    else
      some ⟨"encoding", c.name, "likely identifier, consider dropping", "low",
        "high-cardinality categorical"⟩
  else none

/-- Third central moment, used to compare `|skew|` against 1 exactly:
`|skew| > 1` holds exactly when `m3 ^ 2 > variance ^ 3`. -/
def ratThirdMoment (xs : List Rat) : Rat :=
  ((xs.map (fun x => (x - ratMean xs) ^ 3)).sum) / (xs.length : Rat)

/-- Whether the column's numeric values are skewed with `|skew| > 1`. -/
def isSkewed (c : Column) : Bool :=
  let xs := numericValues c.values
  ratThirdMoment xs ^ 2 > ratVariance xs ^ 3

/-- Modelled from the spec: skewed numeric columns get a log or box-cox
transform suggestion (section 4.4). -/
def transformationSuggestion (c : Column) : Option Suggestion :=
  if inferType c.values = SemType.numeric ∧ isSkewed c = true then
    some ⟨"transformation", c.name, "log or box-cox transform", "medium",
      "skewed distribution"⟩
  else none

/-- Modelled from the spec: the distance-based model families driving the
scaling choice (section 4.4). -/
def distanceBased (families : List String) : Bool :=
  families.any (fun f => f = "k-means" ∨ f = "knn" ∨ f = "svm")

/-- Modelled from the spec: non-skewed numeric columns get a scaling
suggestion, standard when the recommended model family is distance-based,
min-max otherwise (section 4.4). -/
def scalingSuggestion (families : List String) (c : Column) :
    Option Suggestion :=
  if inferType c.values = SemType.numeric ∧ isSkewed c = false then
    some ⟨"scaling", c.name,
      if distanceBased families then "standard scaling" else "min-max scaling",
      "medium", "numeric feature"⟩
  else none

/-- Modelled from the spec: imputation suggestions for columns with
missing values - mean or median for numeric, mode for categorical, plus a
missingness-indicator suggestion above 20 percent (section 4.4). -/
def imputationSuggestions (row_count : Nat) (c : Column) : List Suggestion :=
  if (c.values.filter Cell.isMissing).length = 0 then []
  else
    let base : Suggestion :=
      ⟨"imputation", c.name,
        if inferType c.values = SemType.numeric then "mean or median imputation"
        else "mode imputation",
        "medium", "column has missing values"⟩
    if 20 < missingPct row_count c then
      [base, ⟨"imputation", c.name, "consider a missingness indicator column",
        "medium", "more than 20 percent missing"⟩]
    else [base]

/-- Candidate columns ranked by absolute correlation with the target. -/
def topCorrelated (ds : Dataset) (t : Column) (k : Nat) : List String :=
  let cands := (scannedColumns ds).filter (fun c => c.name ≠ t.name)
  let scored := cands.filterMap (fun c => (pearson c t).map (fun r => (c.name, |r|)))
  ((List.insertionSort
      (fun a b : String × Rat => b.2 < a.2 ∨ (a.2 = b.2 ∧ a.1 ≤ b.1))
      scored).take k).map Prod.fst

/-- Modelled from the spec: feature-creation suggestions fire only with
two or more numeric columns and a numeric target, proposing interaction
features for the top-5 columns most correlated with the target
(section 4.4). -/
def featureCreationSuggestions (ds : Dataset) (target : Option Column) :
    List Suggestion :=
  match target with
  | none => []
  | some t =>
      if inferType t.values = SemType.numeric ∧ 2 ≤ (scannedColumns ds).length then
        (topCorrelated ds t 5).map (fun n =>
          ⟨"feature_creation", n, "pairwise interaction and ratio features",
            "medium", "highly correlated with target"⟩)
      else []

/-- Modelled from the spec: the Feature Engineering Advisor - a
deterministic decision table over the profile and optional target
(section 4.4). -/
def adviseFeatures (ds : Dataset) (target : Option Column)
    (families : List String) : FeatureSuggestions :=
  { encoding_suggestions := ds.columns.filterMap (encodingSuggestion target.isSome)
    scaling_suggestions := ds.columns.filterMap (scalingSuggestion families)
    feature_creation_suggestions := featureCreationSuggestions ds target
    missing_value_suggestions :=
      ds.columns.flatMap (imputationSuggestions ds.row_count)
    transformation_suggestions := ds.columns.filterMap transformationSuggestion }

/-- A declarative chart specification (spec section 4.6). -/
structure ChartSpec where
  chart_type : String
  x : String
  y : Option String
  title : String
deriving DecidableEq, Repr

/-- Modelled from the spec: the Visualization Planner - a pure function
from profile, correlation and outlier results to chart specs, never
touching raw data (section 4.6). -/
def planVisualizations (profile : DatasetProfile) (corr : CorrelationData)
    (outliers : OutlierReport) : List ChartSpec :=
  (profile.column_profiles.filterMap (fun p =>
    if p.sem_type = SemType.numeric ∧ p.identifier_like = false then
      some ⟨"histogram", p.name, none, "Distribution of " ++ p.name⟩
    else none)) ++
  (if corr.correlation_matrix.isEmpty then []
   else [⟨"heatmap", "correlation_matrix", none, "Feature Correlation Heatmap"⟩]) ++
  (if profile.total_missing_cells = 0 then []
   else [⟨"bar", "missing_counts", none, "Missing Values by Column"⟩]) ++
  (outliers.outliers_by_column.filterMap (fun e =>
    if e.2.count = 0 then none
    else some ⟨"box", e.1, none, "Outliers in " ++ e.1⟩))

/-- Modelled from the spec: the engine's `AnalysisConfiguration` - one
boolean toggle per optional report section plus numeric limits and the
default flag (section 3).  Toggle names follow the settings page's
`AnalyticsConfiguration` interface where it has them; the `column_analysis`
section, which has no toggle in that interface, gets
`show_column_analysis`. -/
structure AnalysisConfiguration where
  name : String
  is_default : Bool
  show_missing_analysis : Bool
  show_column_analysis : Bool
  show_correlation_analysis : Bool
  show_statistical_summary : Bool
  show_model_recommendations : Bool
  show_preprocessing_recommendations : Bool
  show_visualizations : Bool
  show_ai_insights : Bool
  max_correlation_pairs : Nat
  max_model_recommendations : Nat
deriving DecidableEq, Repr

/-- The always-present `dataset_info` head of a report. -/
structure DatasetInfo where
  rows : Nat
  columns : Nat
  column_names : List String
deriving DecidableEq, Repr

/-- The wire-level `AnalysisReport` shape of the enhanced-analytics
page's `AnalysisResult` interface and spec section 6: `dataset_info` plus
eight optional sections, an absent section encoded as `none`. -/
structure AnalysisReport where
  dataset_info : DatasetInfo
  missing_analysis : Option MissingAnalysis
  column_analysis : Option (List ColumnProfile)
  correlation_data : Option CorrelationData
  statistical_summary : Option (List (String × NumericStats))
  model_recommendations : Option (List ModelRecommendation)
  preprocessing_recommendations : Option FeatureSuggestions
  visualizations : Option (List ChartSpec)
  ai_insights : Option String
deriving DecidableEq

/-- Column lookup by name. -/
def findColumn (ds : Dataset) (n : String) : Option Column :=
  ds.columns.find? (fun c => c.name = n)

/-- Default high-correlation threshold (spec section 3). -/
def defaultThreshold : Rat := 7 / 10

/-- Recommended model families, empty when the advisor failed. -/
def familiesOf (r : Except AnalysisError (List ModelRecommendation)) :
    List String :=
  match r with
  | .ok l => l.map (fun m => m.model_family)
  | .error _ => []

/-- Modelled from the spec: the Assembling stage - compose only enabled,
successful sections; disabled or failed sections are omitted, never null
placeholders (sections 4.7 and 6).  A section failure (the model advisor's
`AmbiguousTarget`) is non-fatal: the section is omitted. -/
def buildReport (ds : Dataset) (cfg : AnalysisConfiguration)
    (tc : Option Column) (narrative : Option (DatasetProfile → String)) :
    AnalysisReport :=
  let profile := profileDataset ds
  let modelRecs := recommendModels ds tc cfg.max_model_recommendations
  let corr := analyzeCorrelations ds defaultThreshold cfg.max_correlation_pairs
  let outl := mkOutlierReport "iqr" (outlierEntries iqrFlagged (fun _ => false) ds)
  { dataset_info :=
      ⟨ds.row_count, ds.columns.length, ds.columns.map (fun c => c.name)⟩
    missing_analysis :=
      if cfg.show_missing_analysis then some (computeMissingAnalysis ds) else none
    column_analysis :=
      if cfg.show_column_analysis then some profile.column_profiles else none
    correlation_data :=
      if cfg.show_correlation_analysis then some corr else none
    statistical_summary :=
      if cfg.show_statistical_summary then some (statisticalSummary ds) else none
    model_recommendations :=
      if cfg.show_model_recommendations then modelRecs.toOption else none
    preprocessing_recommendations :=
      if cfg.show_preprocessing_recommendations then
        some (adviseFeatures ds tc (familiesOf modelRecs))
      else none
    visualizations :=
      if cfg.show_visualizations then some (planVisualizations profile corr outl)
      else none
    ai_insights :=
      if cfg.show_ai_insights then narrative.map (fun f => f profile) else none }

/-- Modelled from the spec: the Report Assembler entry point
(sections 4.7 and 6) - resolving a bad target reference is a fatal
`UnknownColumn`; otherwise the enabled sections are composed. -/
def assembleReport (ds : Dataset) (cfg : AnalysisConfiguration)
    (target : Option String) (narrative : Option (DatasetProfile → String)) :
    Except AnalysisError AnalysisReport :=
  match target with
  | some n =>
      match findColumn ds n with
      | none => .error AnalysisError.UnknownColumn
      | some tc => .ok (buildReport ds cfg (some tc) narrative)
  | none => .ok (buildReport ds cfg none narrative)

/-- Shallow embedding of the settings page's `AnalyticsConfiguration`
TypeScript interface. -/
structure AnalyticsConfiguration where
  id : Nat
  name : String
  is_default : Bool
  show_dataset_overview : Bool
  show_missing_analysis : Bool
  show_correlation_analysis : Bool
  show_statistical_summary : Bool
  show_model_recommendations : Bool
  show_preprocessing_recommendations : Bool
  show_ai_insights : Bool
  show_visualizations : Bool
  include_correlation_heatmap : Bool
  include_missing_values_chart : Bool
  include_distribution_plots : Bool
  include_outlier_detection : Bool
  max_correlation_pairs : Nat
  max_model_recommendations : Nat
  include_advanced_stats : Bool
  created_at : String
  updated_at : Option String
deriving DecidableEq, Repr

/-- Shallow embedding of the success branch of `handleSetDefault` on the
settings page: the configurations state is replaced by
`configurations.map(c => (\x7b ...c, is_default: c.id === id \x7d))`. -/
def setDefaultLocal (id : Nat) (l : List AnalyticsConfiguration) :
    List AnalyticsConfiguration :=
  l.map (fun c => { c with is_default := c.id == id })

/-- The owner's configuration-store state: persisted configurations plus
the next fresh id. -/
structure ConfigStore where
  nextId : Nat
  configs : List AnalyticsConfiguration
deriving DecidableEq, Repr

def ConfigStore.empty : ConfigStore := ⟨0, []⟩

/-- The configuration operations of the store interface (spec
section 6). -/
inductive ConfigOp where
  | create (c : AnalyticsConfiguration)
  | update (id : Nat) (c : AnalyticsConfiguration)
  | del (id : Nat)
  | setDefault (id : Nat)

/-- Modelled from the spec: the configuration store's
`save/update/delete/setDefault` operations (section 6), with the
at-most-one-default rule enforced by the assembler (section 3): an
operation that marks a configuration default clears the flag on every
other configuration of the owner; `setDefault` performs exactly the
update the settings page mirrors locally. -/
def applyOp (st : ConfigStore) : ConfigOp → ConfigStore
  | .create c =>
      let c2 := { c with id := st.nextId }
      if c2.is_default then
        ⟨st.nextId + 1,
          (st.configs.map (fun d => { d with is_default := false })) ++ [c2]⟩
      else ⟨st.nextId + 1, st.configs ++ [c2]⟩
  | .update id c =>
      if st.configs.any (fun d => d.id == id) then
        let c2 := { c with id := id }
        ⟨st.nextId, st.configs.map (fun d =>
          if d.id == id then c2
          else if c2.is_default then { d with is_default := false } else d)⟩
      else st
  | .del id => ⟨st.nextId, st.configs.filter (fun d => ! (d.id == id))⟩
  | .setDefault id =>
      ⟨st.nextId, st.configs.map (fun d => { d with is_default := d.id == id })⟩

/-- A configuration-operation history applied to the empty store. -/
def runOps (ops : List ConfigOp) : ConfigStore :=
  ops.foldl applyOp ConfigStore.empty

/-- Number of configurations marked default. -/
def defaultCount (l : List AnalyticsConfiguration) : Nat :=
  l.countP (fun c => c.is_default)

/-- The outlier-method values offered by the dataset-analysis page's
selector (its three `SelectItem` entries). -/
def outlierMethodOptions : List String := ["iqr", "zscore", "isolation_forest"]

/-- The initial `outlierMethod` state of the dataset-analysis page
(`useState('iqr')`). -/
def initialOutlierMethod : String := "iqr"

/-- A selection event from the method selector: the `Select` only emits
one of its offered item values, so any other choice leaves the state
unchanged. -/
def selectOutlierMethod (current choice : String) : String :=
  if choice ∈ outlierMethodOptions then choice else current

/-- The `outlierMethod` state after a sequence of selector events. -/
def outlierMethodAfter (choices : List String) : String :=
  choices.foldl selectOutlierMethod initialOutlierMethod

/-! ## Shared lemmas -/

lemma detectOutliers_ok_of_mem (ds : Dataset) {m : String}
    (h : m ∈ outlierMethodOptions) :
    detectOutliers ds m ≠ Except.error AnalysisError.UnsupportedMethod := by
  simp only [outlierMethodOptions, List.mem_cons, List.not_mem_nil, or_false] at h
  rcases h with h | h | h <;> subst h <;> simp [detectOutliers]

lemma selectOutlierMethod_mem {cur : String} (choice : String)
    (h : cur ∈ outlierMethodOptions) :
    selectOutlierMethod cur choice ∈ outlierMethodOptions := by
  unfold selectOutlierMethod
  split <;> simp_all

lemma outlierMethodAfter_mem (choices : List String) :
    outlierMethodAfter choices ∈ outlierMethodOptions := by
  suffices h : ∀ cur, cur ∈ outlierMethodOptions →
      choices.foldl selectOutlierMethod cur ∈ outlierMethodOptions by
    exact h initialOutlierMethod (by simp [initialOutlierMethod, outlierMethodOptions])
  induction choices with
  | nil => intro cur h; simpa using h
  | cons c t ih =>
      intro cur h
      exact ih _ (selectOutlierMethod_mem c h)

/-! ## C6 - unknown outlier strategy names -/

/-- C6: every strategy name outside the set `iqr`, `zscore`,
`isolation_forest` makes `detectOutliers` fail with `UnsupportedMethod`,
and every name in the set never produces that failure. -/
theorem detectOutliers_unsupported_iff (ds : Dataset) (m : String) :
    (m ∉ outlierMethodOptions →
      detectOutliers ds m = Except.error AnalysisError.UnsupportedMethod) ∧
    (m ∈ outlierMethodOptions →
      detectOutliers ds m ≠ Except.error AnalysisError.UnsupportedMethod) := by
  constructor
  · intro h
    simp only [outlierMethodOptions, List.mem_cons, List.not_mem_nil, or_false,
      not_or] at h
    obtain ⟨h1, h2, h3⟩ := h
    simp [detectOutliers, h1, h2, h3]
  · exact fun h => detectOutliers_ok_of_mem ds h

/-- Witness for C6 at the strategy names `pca` and `iqr` on a one-column
dataset. -/
theorem detectOutliers_unsupported_iff_witness :
    detectOutliers ⟨[⟨"x", [Cell.num 2]⟩], 1⟩ "pca" =
        Except.error AnalysisError.UnsupportedMethod ∧
      detectOutliers ⟨[⟨"x", [Cell.num 2]⟩], 1⟩ "iqr" ≠
        Except.error AnalysisError.UnsupportedMethod :=
  ⟨(detectOutliers_unsupported_iff ⟨[⟨"x", [Cell.num 2]⟩], 1⟩ "pca").1
      (by decide),
    (detectOutliers_unsupported_iff ⟨[⟨"x", [Cell.num 2]⟩], 1⟩ "iqr").2
      (by decide)⟩

/-! ## C10 - the analyze page can only send supported method names -/

/-- C10: in every reachable state of the dataset-analysis page the
outlier-method value is one of the three selector options - the state is
initialized to `iqr` and every selector event keeps it in the option set -
so the detect-outliers request body never triggers the
`UnsupportedMethod` branch. -/
theorem outlier_method_state_reachable (choices : List String) :
    outlierMethodAfter choices ∈ outlierMethodOptions ∧
    ∀ ds : Dataset,
      detectOutliers ds (outlierMethodAfter choices) ≠
        Except.error AnalysisError.UnsupportedMethod := by
  refine ⟨outlierMethodAfter_mem choices, fun ds => ?_⟩
  exact detectOutliers_ok_of_mem ds (outlierMethodAfter_mem choices)

/-- Witness for C10 on a concrete event sequence (a stray value, then
`zscore`). -/
theorem outlier_method_state_reachable_witness :
    outlierMethodAfter ["bogus", "zscore"] ∈ outlierMethodOptions ∧
      detectOutliers ⟨[⟨"x", [Cell.num 2]⟩], 1⟩
          (outlierMethodAfter ["bogus", "zscore"]) ≠
        Except.error AnalysisError.UnsupportedMethod :=
  ⟨(outlier_method_state_reachable ["bogus", "zscore"]).1,
    (outlier_method_state_reachable ["bogus", "zscore"]).2
      ⟨[⟨"x", [Cell.num 2]⟩], 1⟩⟩

/-! ## C7 - problem-type inference -/

/-- C7: problem-type inference - no target means clustering; a
categorical target with at most 20 distinct values means classification;
a numeric target means regression; every remaining case fails with
`AmbiguousTarget` rather than guessing. -/
theorem inferProblemType_cases (target : Option Column) :
    (target = none → inferProblemType target = .ok ProblemType.clustering) ∧
    (∀ c, target = some c → inferType c.values = SemType.categorical →
      distinctCount c ≤ 20 →
      inferProblemType target = .ok ProblemType.classification) ∧
    (∀ c, target = some c → inferType c.values = SemType.numeric →
      inferProblemType target = .ok ProblemType.regression) ∧
    (∀ c, target = some c →
      ¬(inferType c.values = SemType.categorical ∧ distinctCount c ≤ 20) →
      inferType c.values ≠ SemType.numeric →
      inferProblemType target = .error AnalysisError.AmbiguousTarget) := by
  refine ⟨fun h => by simp [h, inferProblemType], ?_, ?_, ?_⟩
  · intro c hc ht hd
    subst hc
    simp [inferProblemType, ht, hd]
  · intro c hc ht
    subst hc
    have : ¬(inferType c.values = SemType.categorical ∧ distinctCount c ≤ 20) := by
      rintro ⟨h1, -⟩
      rw [ht] at h1
      exact absurd h1 (by decide)
    simp [inferProblemType, this, ht]
  · intro c hc h1 h2
    subst hc
    simp [inferProblemType, h1, h2]

/-- A 30-row target column holding three distinct string values. -/
def categoricalTarget : Column :=
  ⟨"label", (List.range 30).map (fun i =>
    Cell.str (if i % 3 = 0 then "low" else if i % 3 = 1 then "mid" else "high"))⟩

/-- Witness for C7: the three-distinct-string target resolves to
classification. -/
theorem inferProblemType_cases_witness :
    inferType categoricalTarget.values = SemType.categorical ∧
      inferProblemType (some categoricalTarget) = .ok ProblemType.classification :=
  ⟨by with_unfolding_all decide,
    (inferProblemType_cases (some categoricalTarget)).2.1 categoricalTarget rfl
      (by with_unfolding_all decide) (by with_unfolding_all decide)⟩

/-! ## C8 - the 100-row IQR scenario -/

/-- The scenario dataset: 100 rows, one numeric column holding 1 through
98 followed by 1000 and -1000. -/
def scenarioColumn : Column :=
  ⟨"x", ((List.range 98).map (fun i => Cell.num ((i : Rat) + 1))) ++
    [Cell.num 1000, Cell.num (-1000)]⟩

def scenarioDataset : Dataset := ⟨[scenarioColumn], 100⟩

set_option maxRecDepth 200000 in
/-- C8: on the 100-row scenario dataset the IQR strategy flags exactly 2
outliers in the column and reports percentage 2. -/
theorem iqr_scenario_two_outliers :
    scenarioDataset.row_count = 100 ∧
    WellFormed scenarioDataset ∧
    (detectOutliers scenarioDataset "iqr").map (fun r =>
        (r.total_outliers,
          r.outliers_by_column.map (fun e => (e.1, e.2.count, e.2.percentage)))) =
      .ok (2, [("x", 2, 2)]) := by
  refine ⟨rfl, by decide, ?_⟩
  with_unfolding_all decide

/-! ## C5 - null correlations and the heatmap display -/

/-- A wire matrix with every null entry replaced by an explicit zero
coefficient. -/
def fillNulls (m : CorrMatrixWire) : CorrMatrixWire :=
  m.map (fun r => (r.1, r.2.map (fun e => (e.1, some (e.2.getD 0)))))

lemma lookup_rowFill (row : List (String × Option Rat)) (k : String) :
    (row.map (fun e => (e.1, some (e.2.getD 0)))).lookup k =
      (row.lookup k).map (fun v => some (v.getD 0)) := by
  induction row with
  | nil => rfl
  | cons hd t ih =>
      obtain ⟨a, b⟩ := hd
      simp only [List.map_cons, List.lookup]
      cases hb : k == a <;> simp [ih]

lemma lookup_fillNulls (m : CorrMatrixWire) (k : String) :
    (fillNulls m).lookup k =
      (m.lookup k).map (fun row => row.map (fun e => (e.1, some (e.2.getD 0)))) := by
  induction m with
  | nil => rfl
  | cons hd t ih =>
      obtain ⟨a, row⟩ := hd
      simp only [fillNulls, List.map_cons, List.lookup]
      cases hb : k == a <;> simp_all [fillNulls]

lemma heatmapZ_fillNulls (m : CorrMatrixWire) :
    heatmapZ (fillNulls m) = heatmapZ m := by
  unfold heatmapZ
  have hcols : (fillNulls m).map (fun r => r.1) = m.map (fun r => r.1) := by
    simp [fillNulls]
  rw [hcols]
  refine List.map_congr_left (fun c1 _ => ?_)
  refine List.map_congr_left (fun c2 _ => ?_)
  rw [lookup_fillNulls]
  cases hm : m.lookup c1 with
  | none => rfl
  | some row =>
      simp only [Option.map, Option.bind, lookup_rowFill]
      cases hr : row.lookup c2 with
      | none => rfl
      | some v => cases v <;> rfl

/-- C5 (amended): the analyzer reports a pair with fewer than 2
overlapping non-missing observations as null, but the heatmap display
substitutes the number 0 for null or missing matrix entries - rendering a
null-filled matrix identically to a zero-filled one - so the null/zero
distinction is not preserved end to end. -/
theorem correlation_null_not_preserved_by_display (c1 c2 : Column)
    (m : CorrMatrixWire) :
    ((overlapPairs c1.values c2.values).length < 2 → pearson c1 c2 = none) ∧
    heatmapZ (fillNulls m) = heatmapZ m := by
  constructor
  · intro h
    unfold pearson
    rw [if_pos h]
  · exact heatmapZ_fillNulls m

/-- Numeric columns whose only observations fall on disjoint rows. -/
def corrColA : Column := ⟨"a", [Cell.num 2, Cell.num 3, Cell.missing]⟩

def corrColB : Column := ⟨"b", [Cell.missing, Cell.missing, Cell.num 5]⟩

def nullPairDataset : Dataset := ⟨[corrColA, corrColB], 3⟩

/-- C5 counterexample: on a dataset whose two numeric columns overlap in
zero rows the analyzer reports the pair as null, yet the heatmap z-values
computed by `renderCorrelationHeatmap` show 0 at that cell - exactly what
a zero coefficient would show - so the claim that null is preserved where
the matrix is consumed for display is false. -/
theorem correlation_null_displayed_as_zero :
    pearson corrColA corrColB = none ∧
    matrixOf nullPairDataset =
      [("a", [("a", some 1), ("b", none)]), ("b", [("a", none), ("b", none)])] ∧
    heatmapZ (matrixOf nullPairDataset) = [[1, 0], [0, 0]] ∧
    heatmapZ (matrixOf nullPairDataset) =
      heatmapZ (fillNulls (matrixOf nullPairDataset)) := by
  refine ⟨?_, ?_, ?_, ?_⟩ <;> with_unfolding_all decide

/-- Witness for C5's amended statement at the concrete disjoint-overlap
columns. -/
theorem correlation_null_not_preserved_by_display_witness :
    pearson corrColA corrColB = none ∧
      heatmapZ (fillNulls [("a", [("b", none)])]) =
        heatmapZ [("a", [("b", none)])] :=
  ⟨(correlation_null_not_preserved_by_display corrColA corrColB []).1
      (by with_unfolding_all decide),
    (correlation_null_not_preserved_by_display corrColA corrColB
      [("a", [("b", none)])]).2⟩

/-! ## C4 - structure of high_correlation_pairs -/

/-- Three perfectly correlated (non-monotonic) numeric columns: every
pair qualifies at the default threshold. -/
def corrCounterexampleDataset : Dataset :=
  ⟨[⟨"x", [Cell.num 1, Cell.num 3, Cell.num 2]⟩,
    ⟨"y", [Cell.num 2, Cell.num 6, Cell.num 4]⟩,
    ⟨"z", [Cell.num (-1), Cell.num (-3), Cell.num (-2)]⟩], 3⟩

/-- An all-sections-enabled configuration with the default numeric
limits of the settings page (`max_correlation_pairs` 10,
`max_model_recommendations` 5). -/
def fullConfig : AnalysisConfiguration :=
  { name := "full"
    is_default := true
    show_missing_analysis := true
    show_column_analysis := true
    show_correlation_analysis := true
    show_statistical_summary := true
    show_model_recommendations := true
    show_preprocessing_recommendations := true
    show_visualizations := true
    show_ai_insights := true
    max_correlation_pairs := 10
    max_model_recommendations := 5 }

/-- C4 (amended): `high_correlation_pairs` is the
`max_correlation_pairs`-prefix of the qualifying pairs sorted by
descending absolute coefficient with ties broken by column-name order:
its length is at most the cap, it is sorted, every member qualifies, and
whenever the qualifying pairs fit under the cap the list contains exactly
the qualifying pairs. -/
theorem high_correlation_pairs_spec (ds : Dataset)
    (cfg : AnalysisConfiguration) :
    ((analyzeCorrelations ds defaultThreshold
        cfg.max_correlation_pairs).high_correlation_pairs).length ≤
      cfg.max_correlation_pairs ∧
    List.Sorted pairLE
      ((analyzeCorrelations ds defaultThreshold
        cfg.max_correlation_pairs).high_correlation_pairs) ∧
    (∀ p ∈ (analyzeCorrelations ds defaultThreshold
        cfg.max_correlation_pairs).high_correlation_pairs,
      defaultThreshold ≤ |p.coefficient| ∧ p ∈ computedPairs ds) ∧
    ((qualifyingPairs ds defaultThreshold).length ≤ cfg.max_correlation_pairs →
      ((analyzeCorrelations ds defaultThreshold
        cfg.max_correlation_pairs).high_correlation_pairs).Perm
        (qualifyingPairs ds defaultThreshold)) := by
  refine ⟨List.length_take_le _ _, ?_, ?_, ?_⟩
  · exact List.Pairwise.sublist (List.take_sublist _ _)
      (List.sorted_insertionSort pairLE _)
  · intro p hp
    have hmem : p ∈ qualifyingPairs ds defaultThreshold :=
      (List.perm_insertionSort pairLE _).mem_iff.mp
        ((List.take_sublist _ _).subset hp)
    simp only [qualifyingPairs, List.mem_filter] at hmem
    exact ⟨of_decide_eq_true hmem.2, hmem.1⟩
  · intro hlen
    have hlen2 : (sortedQualifying ds defaultThreshold).length ≤
        cfg.max_correlation_pairs := by
      rwa [sortedQualifying,
        (List.perm_insertionSort pairLE _).length_eq]
    show ((sortedQualifying ds defaultThreshold).take _).Perm _
    rw [List.take_of_length_le hlen2]
    exact List.perm_insertionSort pairLE _

/-- Witness for C4's amended statement: on the three-column dataset all
three qualifying pairs fit under the default cap of 10, so the list holds
exactly the qualifying pairs. -/
theorem high_correlation_pairs_spec_witness :
    ((analyzeCorrelations corrCounterexampleDataset defaultThreshold
        fullConfig.max_correlation_pairs).high_correlation_pairs).Perm
      (qualifyingPairs corrCounterexampleDataset defaultThreshold) ∧
    ((analyzeCorrelations corrCounterexampleDataset defaultThreshold
        fullConfig.max_correlation_pairs).high_correlation_pairs).length ≤
      fullConfig.max_correlation_pairs :=
  ⟨(high_correlation_pairs_spec corrCounterexampleDataset fullConfig).2.2.2
      (by with_unfolding_all decide),
    (high_correlation_pairs_spec corrCounterexampleDataset fullConfig).1⟩

/-- C4 counterexample: with `max_correlation_pairs = 1` (a configuration
the spec's own scenario uses) three pairs qualify at the default 0.7
threshold but the list keeps only one, so it does not contain every
qualifying numeric-column pair as the claim states. -/
theorem high_correlation_pairs_drops_qualifying :
    CorrPair.mk "x" "z" (-1) ∈
      qualifyingPairs corrCounterexampleDataset defaultThreshold ∧
    (qualifyingPairs corrCounterexampleDataset defaultThreshold).length = 3 ∧
    (analyzeCorrelations corrCounterexampleDataset defaultThreshold
        1).high_correlation_pairs = [CorrPair.mk "x" "y" 1] ∧
    CorrPair.mk "x" "z" (-1) ∉
      (analyzeCorrelations corrCounterexampleDataset defaultThreshold
        1).high_correlation_pairs := by
  refine ⟨?_, ?_, ?_, ?_⟩ <;> with_unfolding_all decide

/-! ## C3 - outlier-report invariants -/

lemma enum_filterMap_length_le {α β : Type} (l : List α)
    (g : Nat × α → Option β) : (l.enum.filterMap g).length ≤ l.length := by
  calc (l.enum.filterMap g).length ≤ l.enum.length :=
        List.length_filterMap_le g l.enum
    _ = l.length := List.enum_length

lemma iqrFlagged_length_le (c : Column) :
    (iqrFlagged c).length ≤ c.values.length := by
  unfold iqrFlagged
  exact enum_filterMap_length_le _ _

lemma zscoreFlagged_length_le (c : Column) :
    (zscoreFlagged c).length ≤ c.values.length := by
  unfold zscoreFlagged
  exact enum_filterMap_length_le _ _

lemma isoFlagged_length_le (c : Column) :
    (isoFlagged c).length ≤ c.values.length := by
  unfold isoFlagged
  exact enum_filterMap_length_le _ _

lemma outlierEntries_spec {flag : Column → List Nat} {skip : Column → Bool}
    {ds : Dataset} {name : String} {info : ColumnOutliers}
    (hwf : WellFormed ds)
    (hflag : ∀ c, (flag c).length ≤ c.values.length)
    (hmem : (name, info) ∈ outlierEntries flag skip ds) :
    info.count ≤ ds.row_count ∧
    info.percentage = (info.count : Rat) / (ds.row_count : Rat) * 100 := by
  unfold outlierEntries at hmem
  rcases List.mem_filterMap.mp hmem with ⟨c, hc, hsome⟩
  by_cases hs : skip c
  · rw [if_pos hs] at hsome
    cases hsome
  · rw [if_neg hs] at hsome
    simp only [Option.some.injEq, Prod.mk.injEq] at hsome
    obtain ⟨-, hi⟩ := hsome
    have hcc : c ∈ ds.columns := List.mem_of_mem_filter hc
    have hlen : c.values.length = ds.row_count := hwf c hcc
    subst hi
    exact ⟨hlen ▸ hflag c, rfl⟩

lemma percentage_bounds {count rc : Nat} (h : count ≤ rc) :
    0 ≤ (count : Rat) / (rc : Rat) * 100 ∧
    (count : Rat) / (rc : Rat) * 100 ≤ 100 := by
  constructor
  · positivity
  · rcases Nat.eq_zero_or_pos rc with h0 | hpos
    · subst h0
      interval_cases count
      norm_num
    · have h1 : (count : Rat) / (rc : Rat) ≤ 1 := by
        rw [div_le_one (by exact_mod_cast hpos)]
        exact_mod_cast h
      calc (count : Rat) / (rc : Rat) * 100 ≤ 1 * 100 :=
            mul_le_mul_of_nonneg_right h1 (by norm_num)
        _ = 100 := by norm_num

/-- C3: every per-column entry of an outlier report, for every strategy,
satisfies `percentage = count / row_count * 100`, `0 <= percentage <= 100`
and `count <= row_count`. -/
theorem outlier_report_invariant (ds : Dataset) (method : String)
    (report : OutlierReport) (name : String) (info : ColumnOutliers)
    (hwf : WellFormed ds)
    (hok : detectOutliers ds method = .ok report)
    (hmem : (name, info) ∈ report.outliers_by_column) :
    info.percentage = (info.count : Rat) / (ds.row_count : Rat) * 100 ∧
    0 ≤ info.percentage ∧ info.percentage ≤ 100 ∧
    info.count ≤ ds.row_count := by
  have main : info.count ≤ ds.row_count ∧
      info.percentage = (info.count : Rat) / (ds.row_count : Rat) * 100 := by
    unfold detectOutliers at hok
    split_ifs at hok
    · cases hok
      exact outlierEntries_spec hwf iqrFlagged_length_le hmem
    · cases hok
      exact outlierEntries_spec hwf zscoreFlagged_length_le hmem
    · cases hok
      exact outlierEntries_spec hwf isoFlagged_length_le hmem
  have hb := percentage_bounds main.1
  exact ⟨main.2, main.2 ▸ hb.1, main.2 ▸ hb.2, main.1⟩

/-- A four-value column whose IQR report flags one outlier. -/
def witnessColumn : Column :=
  ⟨"w", [Cell.num 5, Cell.num 6, Cell.num 5, Cell.num 100]⟩

def witnessDataset : Dataset := ⟨[witnessColumn], 4⟩

/-- Witness for C3 at the concrete four-row dataset under the IQR
strategy. -/
theorem outlier_report_invariant_witness :
    WellFormed witnessDataset ∧
      ((ColumnOutliers.mk 1 25 [3]).percentage =
          ((ColumnOutliers.mk 1 25 [3]).count : Rat) /
            (witnessDataset.row_count : Rat) * 100 ∧
        0 ≤ (ColumnOutliers.mk 1 25 [3]).percentage ∧
        (ColumnOutliers.mk 1 25 [3]).percentage ≤ 100 ∧
        (ColumnOutliers.mk 1 25 [3]).count ≤ witnessDataset.row_count) :=
  ⟨by decide,
    outlier_report_invariant witnessDataset "iqr"
      (mkOutlierReport "iqr" [("w", ColumnOutliers.mk 1 25 [3])]) "w"
      (ColumnOutliers.mk 1 25 [3]) (by decide)
      (by with_unfolding_all decide) (by with_unfolding_all decide)⟩

/-! ## C9 - zero-row datasets -/

lemma values_nil_of_zero {ds : Dataset} (hwf : WellFormed ds)
    (h0 : ds.row_count = 0) : ∀ c ∈ ds.columns, c.values = [] := by
  intro c hc
  exact List.length_eq_zero.mp (by rw [hwf c hc, h0])

lemma inferType_nil : inferType [] = SemType.boolean := rfl

lemma scannedColumns_nil {ds : Dataset} (hwf : WellFormed ds)
    (h0 : ds.row_count = 0) : scannedColumns ds = [] := by
  unfold scannedColumns
  rw [List.filter_eq_nil_iff]
  intro c hc
  rw [values_nil_of_zero hwf h0 c hc]
  simp [inferType_nil]

lemma totalMissing_zero {ds : Dataset} (hwf : WellFormed ds)
    (h0 : ds.row_count = 0) : totalMissing ds = 0 := by
  unfold totalMissing
  apply List.sum_eq_zero
  intro x hx
  rcases List.mem_map.mp hx with ⟨c, hc, rfl⟩
  rw [values_nil_of_zero hwf h0 c hc]
  rfl

/-- C9: a zero-row dataset is profiled to a zeroed `DatasetProfile`,
assembling never fails, and every optional section computation returns an
empty or zeroed result rather than an error. -/
theorem zero_row_dataset_safe (ds : Dataset) (cfg : AnalysisConfiguration)
    (narrative : Option (DatasetProfile → String)) (t : Rat) (cap : Nat)
    (m : String) (hwf : WellFormed ds) (h0 : ds.row_count = 0)
    (hm : m ∈ outlierMethodOptions) :
    (profileDataset ds).row_count = 0 ∧
    (profileDataset ds).total_missing_cells = 0 ∧
    (profileDataset ds).duplicate_row_count = 0 ∧
    (∀ p ∈ (profileDataset ds).column_profiles,
      p.missing_count = 0 ∧ p.missing_percentage = 0 ∧
      p.distinct_count = 0 ∧ p.numeric_stats = none) ∧
    assembleReport ds cfg none narrative =
      .ok (buildReport ds cfg none narrative) ∧
    (computeMissingAnalysis ds).total_missing = 0 ∧
    (∀ e ∈ (computeMissingAnalysis ds).missing_counts, e.2 = 0) ∧
    statisticalSummary ds = [] ∧
    analyzeCorrelations ds t cap = ⟨[], []⟩ ∧
    detectOutliers ds m = .ok (mkOutlierReport m []) ∧
    recommendModels ds none cap = .ok [] ∧
    (∀ fams, adviseFeatures ds none fams = ⟨[], [], [], [], []⟩) ∧
    planVisualizations (profileDataset ds) (analyzeCorrelations ds t cap)
      (mkOutlierReport "iqr" (outlierEntries iqrFlagged (fun _ => false) ds)) =
      [] := by
  have hnil := values_nil_of_zero hwf h0
  have hscan := scannedColumns_nil hwf h0
  have hentries : ∀ (flag : Column → List Nat) (skip : Column → Bool),
      outlierEntries flag skip ds = [] := by
    intro flag skip
    unfold outlierEntries
    rw [hscan]
    rfl
  have hcorr : analyzeCorrelations ds t cap = ⟨[], []⟩ := by
    unfold analyzeCorrelations matrixOf highCorrelationPairs sortedQualifying
      qualifyingPairs computedPairs
    rw [hscan]
    simp [columnPairs]
  have hprofiles : ∀ p ∈ (profileDataset ds).column_profiles,
      p.missing_count = 0 ∧ p.missing_percentage = 0 ∧
      p.distinct_count = 0 ∧ p.numeric_stats = none := by
    intro p hp
    rcases List.mem_map.mp hp with ⟨c, hc, rfl⟩
    have hv := hnil c hc
    refine ⟨?_, ?_, ?_, ?_⟩ <;>
      simp [profileColumn, hv, nonMissing, inferType_nil]
  refine ⟨h0, totalMissing_zero hwf h0, ?_, hprofiles, rfl, ?_, ?_, ?_, hcorr,
    ?_, ?_, ?_, ?_⟩
  · unfold profileDataset duplicateRowCount
    rw [h0]
    exact Nat.zero_sub _
  · exact totalMissing_zero hwf h0
  · intro e he
    rcases List.mem_map.mp he with ⟨c, hc, rfl⟩
    rw [hnil c hc]
    rfl
  · unfold statisticalSummary
    rw [hscan]
    rfl
  · simp only [outlierMethodOptions, List.mem_cons, List.not_mem_nil, or_false]
      at hm
    rcases hm with h | h | h <;> subst h <;>
      simp [detectOutliers, hentries]
  · simp [recommendModels, inferProblemType, h0]
  · intro fams
    unfold adviseFeatures
    simp only [FeatureSuggestions.mk.injEq]
    refine ⟨?_, ?_, rfl, ?_, ?_⟩
    · rw [List.filterMap_eq_nil_iff]
      intro c hc
      simp [encodingSuggestion, hnil c hc, inferType_nil]
    · rw [List.filterMap_eq_nil_iff]
      intro c hc
      simp [scalingSuggestion, hnil c hc, inferType_nil]
    · rw [List.flatMap_eq_nil_iff]
      intro c hc
      simp [imputationSuggestions, hnil c hc]
    · rw [List.filterMap_eq_nil_iff]
      intro c hc
      simp [transformationSuggestion, hnil c hc, inferType_nil]
  · unfold planVisualizations
    rw [hcorr, hentries]
    have h1 : (profileDataset ds).column_profiles.filterMap (fun p =>
        if p.sem_type = SemType.numeric ∧ p.identifier_like = false then
          some (ChartSpec.mk "histogram" p.name none ("Distribution of " ++ p.name))
        else none) = [] := by
      rw [List.filterMap_eq_nil_iff]
      intro p hp
      rcases List.mem_map.mp hp with ⟨c, hc, rfl⟩
      simp [profileColumn, hnil c hc, inferType_nil]
    rw [h1]
    simp [totalMissing_zero hwf h0, profileDataset, mkOutlierReport]

/-- A two-column zero-row dataset. -/
def emptyDataset : Dataset := ⟨[⟨"a", []⟩, ⟨"b", []⟩], 0⟩

/-- Witness for C9 at the concrete two-column zero-row dataset. -/
theorem zero_row_dataset_safe_witness :
    WellFormed emptyDataset ∧
      ((profileDataset emptyDataset).row_count = 0 ∧
        analyzeCorrelations emptyDataset defaultThreshold 10 = ⟨[], []⟩ ∧
        detectOutliers emptyDataset "iqr" = .ok (mkOutlierReport "iqr" []) ∧
        recommendModels emptyDataset none 5 = .ok []) :=
  ⟨by decide,
    ⟨(zero_row_dataset_safe emptyDataset fullConfig none defaultThreshold 10
        "iqr" (by decide) rfl (by decide)).1,
      (zero_row_dataset_safe emptyDataset fullConfig none defaultThreshold 10
        "iqr" (by decide) rfl (by decide)).2.2.2.2.2.2.2.2.1,
      (zero_row_dataset_safe emptyDataset fullConfig none defaultThreshold 10
        "iqr" (by decide) rfl (by decide)).2.2.2.2.2.2.2.2.2.1,
      (zero_row_dataset_safe emptyDataset fullConfig none defaultThreshold 10
        "iqr" (by decide) rfl (by decide)).2.2.2.2.2.2.2.2.2.2.1⟩⟩

/-! ## C2 - at most one default configuration per owner -/

/-- Well-formedness of the owner's configuration store: ids are below the
fresh-id counter, ids are distinct, and at most one configuration is
marked default. -/
def StoreWF (st : ConfigStore) : Prop :=
  (∀ c ∈ st.configs, c.id < st.nextId) ∧
  (st.configs.map (fun c => c.id)).Nodup ∧
  defaultCount st.configs ≤ 1

lemma countP_id_le_one {l : List AnalyticsConfiguration} (id : Nat)
    (h : (l.map (fun c => c.id)).Nodup) :
    l.countP (fun c => c.id == id) ≤ 1 := by
  induction l with
  | nil => simp
  | cons a t ih =>
      simp only [List.map_cons, List.nodup_cons] at h
      rw [List.countP_cons]
      by_cases ha : a.id = id
      · have hz : t.countP (fun c => c.id == id) = 0 := by
          rw [List.countP_eq_zero]
          intro b hb
          have : b.id ≠ a.id := fun hcontra =>
            h.1 (List.mem_map.mpr ⟨b, hb, hcontra⟩)
          simp [ha ▸ this]
        simp [hz, ha]
      · simp only [show (a.id == id) = false from beq_eq_false_iff_ne.mpr ha]
        simpa using ih h.2

lemma storeWF_empty : StoreWF ConfigStore.empty := by
  refine ⟨?_, ?_, ?_⟩ <;> simp [ConfigStore.empty, defaultCount]

lemma storeWF_applyOp {st : ConfigStore} (op : ConfigOp) (h : StoreWF st) :
    StoreWF (applyOp st op) := by
  obtain ⟨hb, hn, hd⟩ := h
  cases op with
  | create c =>
      have hfresh : st.nextId ∉ st.configs.map (fun d => d.id) := by
        intro hmem
        rcases List.mem_map.mp hmem with ⟨d, hdm, hdid⟩
        exact absurd (hdid ▸ hb d hdm) (lt_irrefl _)
      simp only [applyOp]
      cases hdef : ({ c with id := st.nextId } : AnalyticsConfiguration).is_default
      · rw [if_neg (by simp [hdef])]
        refine ⟨?_, ?_, ?_⟩
        · intro x hx
          rcases List.mem_append.mp hx with hx | hx
          · exact (hb x hx).trans (Nat.lt_succ_self _)
          · rcases List.mem_singleton.mp hx with rfl
            exact Nat.lt_succ_self _
        · rw [List.map_append, List.nodup_append]
          exact ⟨hn, List.nodup_singleton _,
            by simpa [List.disjoint_singleton] using hfresh⟩
        · unfold defaultCount at hd ⊢
          rw [List.countP_append, List.countP_cons]
          simp [hdef, hd]
      · rw [if_pos (by simp [hdef])]
        refine ⟨?_, ?_, ?_⟩
        · intro x hx
          rcases List.mem_append.mp hx with hx | hx
          · rcases List.mem_map.mp hx with ⟨d, hdm, rfl⟩
            exact (hb d hdm).trans (Nat.lt_succ_self _)
          · rcases List.mem_singleton.mp hx with rfl
            exact Nat.lt_succ_self _
        · rw [List.map_append, List.map_map, List.nodup_append]
          refine ⟨hn, List.nodup_singleton _, ?_⟩
          simpa [List.disjoint_singleton, Function.comp] using hfresh
        · unfold defaultCount
          rw [List.countP_append, List.countP_map]
          have hz : st.configs.countP
              ((fun d => d.is_default) ∘
                (fun d => { d with is_default := false })) = 0 := by
            rw [List.countP_eq_zero]
            intro a ha
            simp [Function.comp]
          rw [hz]
          simp [hdef]
  | update id c =>
      simp only [applyOp]
      by_cases hpres : st.configs.any (fun d => d.id == id)
      · rw [if_pos hpres]
        have hid : ∀ d : AnalyticsConfiguration,
            ((fun d =>
              if d.id == id then { c with id := id }
              else if ({ c with id := id } : AnalyticsConfiguration).is_default
                then { d with is_default := false } else d) d).id = d.id := by
          intro d
          dsimp only
          by_cases hdi : d.id = id
          · simp [hdi]
          · rw [if_neg (by simpa using hdi)]
            split <;> rfl
        refine ⟨?_, ?_, ?_⟩
        · intro x hx
          rcases List.mem_map.mp hx with ⟨d, hdm, rfl⟩
          rw [hid d]
          exact hb d hdm
        · rw [List.map_map]
          have : ∀ d ∈ st.configs,
              ((fun x => x.id) ∘ (fun d =>
                if d.id == id then { c with id := id }
                else if ({ c with id := id } : AnalyticsConfiguration).is_default
                  then { d with is_default := false } else d)) d =
              (fun x => x.id) d := fun d _ => hid d
          rw [List.map_congr_left this]
          exact hn
        · unfold defaultCount
          rw [List.countP_map]
          by_cases hc2 : c.is_default = true
          · refine le_trans (le_of_eq (List.countP_congr (fun d hdm => ?_)))
              (countP_id_le_one id hn)
            by_cases hdi : d.id = id <;>
              simp [Function.comp, hdi, hc2]
          · refine le_trans (List.countP_mono_left (fun d hdm hp => ?_)) hd
            simp only [Function.comp] at hp
            by_cases hdi : d.id = id
            · rw [if_pos (by simpa using hdi)] at hp
              exact absurd hp hc2
            · rw [if_neg (by simpa using hdi), if_neg hc2] at hp
              exact hp
      · rw [if_neg hpres]
        exact ⟨hb, hn, hd⟩
  | del id =>
      simp only [applyOp]
      refine ⟨?_, ?_, ?_⟩
      · intro x hx
        exact hb x (List.mem_of_mem_filter hx)
      · exact List.Nodup.sublist
          (List.Sublist.map _ (List.filter_sublist _)) hn
      · exact le_trans (List.Sublist.countP_le _ (List.filter_sublist _)) hd
  | setDefault id =>
      simp only [applyOp]
      refine ⟨?_, ?_, ?_⟩
      · intro x hx
        rcases List.mem_map.mp hx with ⟨d, hdm, rfl⟩
        exact hb d hdm
      · rw [List.map_map]
        exact hn
      · unfold defaultCount
        rw [List.countP_map]
        have heq : st.configs.countP
            ((fun d => d.is_default) ∘
              (fun d => { d with is_default := d.id == id })) =
            st.configs.countP (fun d => d.id == id) :=
          List.countP_congr (fun d _ => by simp [Function.comp])
        rw [heq]
        exact countP_id_le_one id hn

lemma storeWF_runOps (ops : List ConfigOp) : StoreWF (runOps ops) := by
  suffices h : ∀ st, StoreWF st → StoreWF (ops.foldl applyOp st) from
    h ConfigStore.empty storeWF_empty
  induction ops with
  | nil => exact fun st h => h
  | cons op t ih =>
      intro st h
      exact ih _ (storeWF_applyOp op h)

/-- C2: after any sequence of configuration operations at most one of the
owner's configurations is marked default, and the settings page's
set-default success branch leaves exactly the chosen id marked: every
configuration's flag becomes `id == chosen`, so the chosen one is default
and all others are not, with at most one default whenever ids are
distinct. -/
theorem at_most_one_default_configuration :
    (∀ ops : List ConfigOp, defaultCount (runOps ops).configs ≤ 1) ∧
    (∀ (id : Nat) (l : List AnalyticsConfiguration),
      ∀ c ∈ setDefaultLocal id l, c.is_default = (c.id == id)) ∧
    (∀ (id : Nat) (l : List AnalyticsConfiguration),
      (l.map (fun c => c.id)).Nodup → defaultCount (setDefaultLocal id l) ≤ 1) := by
  refine ⟨fun ops => (storeWF_runOps ops).2.2, ?_, ?_⟩
  · intro id l c hc
    rcases List.mem_map.mp hc with ⟨d, -, rfl⟩
    rfl
  · intro id l hn
    unfold defaultCount setDefaultLocal
    rw [List.countP_map]
    have heq : l.countP
        ((fun d => d.is_default) ∘ (fun d => { d with is_default := d.id == id })) =
        l.countP (fun d => d.id == id) :=
      List.countP_congr (fun d _ => by simp [Function.comp])
    rw [heq]
    exact countP_id_le_one id hn

/-- A concrete settings-page configuration used by witnesses. -/
def sampleConfig (i : Nat) (b : Bool) : AnalyticsConfiguration :=
  ⟨i, "cfg", b, true, true, true, true, true, true, true, true, true, true,
    true, true, 10, 5, false, "2024-01-01", none⟩

/-- Witness for C2 on a concrete operation history and a concrete
set-default click. -/
theorem at_most_one_default_configuration_witness :
    defaultCount (runOps [ConfigOp.create (sampleConfig 0 true),
      ConfigOp.create (sampleConfig 0 false), ConfigOp.setDefault 1]).configs ≤
      1 ∧
    (sampleConfig 1 true).is_default = ((sampleConfig 1 true).id == 1) ∧
    defaultCount
      (setDefaultLocal 1 [sampleConfig 1 true, sampleConfig 2 false]) ≤ 1 :=
  ⟨at_most_one_default_configuration.1
      [ConfigOp.create (sampleConfig 0 true),
        ConfigOp.create (sampleConfig 0 false), ConfigOp.setDefault 1],
    at_most_one_default_configuration.2.1 1
      [sampleConfig 1 true, sampleConfig 2 false] (sampleConfig 1 true)
      (by decide),
    at_most_one_default_configuration.2.2 1
      [sampleConfig 1 true, sampleConfig 2 false] (by decide)⟩

/-! ## C1 - report sections present iff enabled and successful -/

/-- A configuration with every section toggle set to `b`. -/
def setAllToggles (cfg : AnalysisConfiguration) (b : Bool) :
    AnalysisConfiguration :=
  { cfg with
    show_missing_analysis := b
    show_column_analysis := b
    show_correlation_analysis := b
    show_statistical_summary := b
    show_model_recommendations := b
    show_preprocessing_recommendations := b
    show_visualizations := b
    show_ai_insights := b }

/-- C1: each optional report field is present exactly when its toggle is
enabled and its computation succeeded (the always-total sections reduce to
the toggle alone; model recommendations also require the advisor to
succeed; ai insights also require the narrative collaborator); with all
toggles disabled every optional field is absent, leaving only
`dataset_info`; with all toggles enabled every optional field is present
barring those two failure sources; and the assembled result of
`assembleReport` is exactly this report. -/
theorem report_sections_present_iff (ds : Dataset)
    (cfg : AnalysisConfiguration) (tc : Option Column)
    (narrative : Option (DatasetProfile → String)) :
    ((buildReport ds cfg tc narrative).missing_analysis.isSome =
        cfg.show_missing_analysis ∧
      (buildReport ds cfg tc narrative).column_analysis.isSome =
        cfg.show_column_analysis ∧
      (buildReport ds cfg tc narrative).correlation_data.isSome =
        cfg.show_correlation_analysis ∧
      (buildReport ds cfg tc narrative).statistical_summary.isSome =
        cfg.show_statistical_summary ∧
      (buildReport ds cfg tc narrative).model_recommendations.isSome =
        (cfg.show_model_recommendations &&
          (recommendModels ds tc cfg.max_model_recommendations).toOption.isSome) ∧
      (buildReport ds cfg tc narrative).preprocessing_recommendations.isSome =
        cfg.show_preprocessing_recommendations ∧
      (buildReport ds cfg tc narrative).visualizations.isSome =
        cfg.show_visualizations ∧
      (buildReport ds cfg tc narrative).ai_insights.isSome =
        (cfg.show_ai_insights && narrative.isSome)) ∧
    ((buildReport ds (setAllToggles cfg false) tc narrative).missing_analysis =
        none ∧
      (buildReport ds (setAllToggles cfg false) tc narrative).column_analysis =
        none ∧
      (buildReport ds (setAllToggles cfg false) tc narrative).correlation_data =
        none ∧
      (buildReport ds (setAllToggles cfg false) tc
          narrative).statistical_summary = none ∧
      (buildReport ds (setAllToggles cfg false) tc
          narrative).model_recommendations = none ∧
      (buildReport ds (setAllToggles cfg false) tc
          narrative).preprocessing_recommendations = none ∧
      (buildReport ds (setAllToggles cfg false) tc narrative).visualizations =
        none ∧
      (buildReport ds (setAllToggles cfg false) tc narrative).ai_insights =
        none) ∧
    ((buildReport ds (setAllToggles cfg true) tc narrative).missing_analysis.isSome =
        true ∧
      (buildReport ds (setAllToggles cfg true) tc narrative).column_analysis.isSome =
        true ∧
      (buildReport ds (setAllToggles cfg true) tc narrative).correlation_data.isSome =
        true ∧
      (buildReport ds (setAllToggles cfg true) tc
          narrative).statistical_summary.isSome = true ∧
      (buildReport ds (setAllToggles cfg true) tc
          narrative).model_recommendations.isSome =
        (recommendModels ds tc cfg.max_model_recommendations).toOption.isSome ∧
      (buildReport ds (setAllToggles cfg true) tc
          narrative).preprocessing_recommendations.isSome = true ∧
      (buildReport ds (setAllToggles cfg true) tc
          narrative).visualizations.isSome = true ∧
      (buildReport ds (setAllToggles cfg true) tc narrative).ai_insights.isSome =
        narrative.isSome) ∧
    (∀ r, assembleReport ds cfg none narrative = .ok r →
      r = buildReport ds cfg none narrative) ∧
    (∀ n tcol r, findColumn ds n = some tcol →
      assembleReport ds cfg (some n) narrative = .ok r →
      r = buildReport ds cfg (some tcol) narrative) := by
  refine ⟨⟨?_, ?_, ?_, ?_, ?_, ?_, ?_, ?_⟩, ?_, ⟨?_, ?_, ?_, ?_, ?_, ?_, ?_, ?_⟩,
    ?_, ?_⟩
  · cases h : cfg.show_missing_analysis <;> simp [buildReport, h]
  · cases h : cfg.show_column_analysis <;> simp [buildReport, h]
  · cases h : cfg.show_correlation_analysis <;> simp [buildReport, h]
  · cases h : cfg.show_statistical_summary <;> simp [buildReport, h]
  · cases h : cfg.show_model_recommendations <;> simp [buildReport, h]
  · cases h : cfg.show_preprocessing_recommendations <;> simp [buildReport, h]
  · cases h : cfg.show_visualizations <;> simp [buildReport, h]
  · cases h : cfg.show_ai_insights <;> cases narrative <;> simp [buildReport, h]
  · refine ⟨?_, ?_, ?_, ?_, ?_, ?_, ?_, ?_⟩ <;>
      simp [buildReport, setAllToggles]
  · simp [buildReport, setAllToggles]
  · simp [buildReport, setAllToggles]
  · simp [buildReport, setAllToggles]
  · simp [buildReport, setAllToggles]
  · simp [buildReport, setAllToggles]
  · simp [buildReport, setAllToggles]
  · simp [buildReport, setAllToggles]
  · cases narrative <;> simp [buildReport, setAllToggles]
  · intro r h
    simp only [assembleReport] at h
    injection h with h
    exact h.symm
  · intro n tcol r hf h
    simp only [assembleReport, hf] at h
    injection h with h
    exact h.symm

/-- Witness for C1 at the concrete four-row dataset with every toggle
enabled. -/
theorem report_sections_present_iff_witness :
    (buildReport witnessDataset fullConfig none none).missing_analysis.isSome =
        fullConfig.show_missing_analysis ∧
      (buildReport witnessDataset (setAllToggles fullConfig false) none
          none).missing_analysis = none ∧
      buildReport witnessDataset fullConfig none none =
        buildReport witnessDataset fullConfig none none :=
  ⟨(report_sections_present_iff witnessDataset fullConfig none none).1.1,
    (report_sections_present_iff witnessDataset fullConfig none none).2.1.1,
    (report_sections_present_iff witnessDataset fullConfig none
        none).2.2.2.1 (buildReport witnessDataset fullConfig none none) rfl⟩

end Zyra
